import Mathlib

/-!
# Verification of `gns3/modules/vpcs/vpcs_device.py` (VPCSDevice)

A shallow embedding of the VPCS device proxy: a settings dictionary mirrored
from a remote server, a single Ethernet port, lifecycle status, and
callback-driven operations (`setup`, `update`, `delete`, `start`, `stop`,
`reload`, config import/export, topology `dump`/`load`).

Python dictionaries are modelled as insertion-ordered association lists over
string keys and a small value type `Val` (strings, integers, `None`).
Signal emissions, owning-module calls and HTTP requests issued by an
operation are collected into an explicit effect record `Eff`.

Collaborators that live in this repository but outside the embedded file
(the `Node` base class, `Port`/`EthernetPort`, the name allocator, the
filesystem helpers) are modelled from the specification as oracle functions
in an `Env` record or as plain fields of the device state; each such
definition carries a note.
-/

namespace VPCS

/-- A Python value as used by the VPCS device: strings, integers and `None`.
Python truthiness: `None`, `""` and `0` are falsy. -/
inductive Val where
  | str : String → Val
  | int : Int → Val
  | null : Val
deriving DecidableEq, Repr

/-- Python truthiness of a `Val` (`if v:`). -/
def Val.truthy : Val → Bool
  | .str s => !(s == "")
  | .int n => !(n == 0)
  | .null => false

/-- Python `str(v)`: the string Python's `format` would interpolate. -/
def Val.pyStr : Val → String
  | .str s => s
  | .int n => toString n
  | .null => "None"

/-- A Python dict with string keys: an insertion-ordered association list
with unique keys (uniqueness is maintained by `dset`/`ddel`). -/
abbrev Mapping := List (String × Val)

/-- Python `m[k]` lookup (`None`-free: `none` means the key is absent). -/
def dget (m : Mapping) (k : String) : Option Val :=
  match m with
  | [] => none
  | (k', v) :: rest => if k' = k then some v else dget rest k

/-- Python `k in m`. -/
def dmem (m : Mapping) (k : String) : Bool :=
  (dget m k).isSome

/-- Python `m[k] = v`: update in place if the key exists, else append (Python
dicts keep insertion order). -/
def dset (m : Mapping) (k : String) (v : Val) : Mapping :=
  match m with
  | [] => [(k, v)]
  | (k', v') :: rest => if k' = k then (k, v) :: rest else (k', v') :: dset rest k v

/-- Python `del m[k]`: remove the entry with key `k` (if present). -/
def ddel (m : Mapping) (k : String) : Mapping :=
  match m with
  | [] => []
  | (k', v') :: rest => if k' = k then rest else (k', v') :: ddel rest k

/-- The keys of a mapping, in order. -/
def keysOf (m : Mapping) : List String :=
  m.map Prod.fst

/-- The status constants of the `Node` base class / `Port`
(modelled from the spec §3: lifecycle status is `stopped | started`). -/
inductive Status where
  | stopped
  | started
deriving DecidableEq, Repr

/-- The single Ethernet port of a VPCS device.
The `Port`/`EthernetPort` classes are not part of the embedded file;
modelled from the spec §3: a port has a name, a short name, a port number,
an id and a status. -/
structure PortState where
  pname : String
  shortName : String
  portNumber : Nat
  pid : Nat
  pstatus : Status
deriving DecidableEq, Repr

/-- The VPCS device state: the fields assigned in `VPCSDevice.__init__`
plus the `Node` base-class state the embedded file reads and writes
(status, initialized flag, local id — modelled from the spec §3). -/
structure Device where
  nid : Nat
  projectId : Val
  serverId : Nat
  vm_id : Val
  defaults : Mapping
  settings : Mapping
  ports : List PortState
  status : Status
  initialized : Bool
  loading : Bool
deriving DecidableEq, Repr

/-- Signals emitted by the device (the notification channel of spec §6). -/
inductive Sig where
  | errorSig (msg : String)
  | serverErrorSig (msg : String)
  | warningSig (msg : String)
  | createdSig
  | updatedSig
  | deletedSig
  | startedSig
  | stoppedSig
  | deleteLinksSig
  | nioSig (portId : Nat)
  | nioCancelSig
  | allocateUdpNioSig (portId : Nat) (lport : Int)
deriving DecidableEq, Repr

/-- Calls made on collaborators: the owning module (`addNode`/`removeNode`)
and the name allocator (`updateAllocatedName`). -/
inductive Call where
  | addNode
  | removeNode
  | updateAllocatedName (v : Val)
deriving DecidableEq, Repr

/-- An HTTP request issued to the server, with the body where one is sent. -/
inductive Req where
  | post (path : String) (body : Mapping)
  | put (path : String) (body : Mapping)
  | delete_ (path : String)
  | get (path : String)
deriving DecidableEq, Repr

/-- The effects of one operation: the device state afterwards, the signals
emitted, the collaborator calls made and the requests issued, in order. -/
structure Eff where
  dev : Device
  sigs : List Sig
  calls : List Call
  reqs : List Req
deriving DecidableEq, Repr

/-- External collaborators, modelled from the spec §6: the name allocator
(`allocateName`, `hasAllocatedName` live on the `Node` base class, outside
the embedded file), the filesystem (`open`/`read`, `os.listdir`, writes),
and `normalize_filename` from `gns3.utils`. -/
structure Env where
  allocateName : String → Option String
  hasAllocatedName : Val → Bool
  readFile : String → Option String
  listdir : String → Option (List String)
  writeFile : String → String → Bool
  normalizeFilename : String → String

/-- Embeds `EthernetPort.longNameType() + "0"` / short name — the port-naming
collaborator is outside the embedded file; modelled from the spec §3
(one Ethernet-type port, number 0). -/
def initPort (pid : Nat) : PortState :=
  { pname := "Ethernet0", shortName := "e0", portNumber := 0, pid := pid,
    pstatus := Status.stopped }

/-- Embeds `VPCSDevice.__init__`: empty name, empty script file, no startup script,
no console, one Ethernet port number 0; the defaults are a copy of the
initial settings. `pid` is the id the `Port` counter hands the fresh port. -/
def initDevice (nid : Nat) (projectId : Val) (serverId : Nat) (pid : Nat) : Device :=
  { nid := nid, projectId := projectId, serverId := serverId,
    vm_id := Val.null,
    defaults := [("name", Val.str ""), ("script_file", Val.str ""),
                 ("startup_script", Val.null), ("console", Val.null)],
    settings := [("name", Val.str ""), ("script_file", Val.str ""),
                 ("startup_script", Val.null), ("console", Val.null)],
    ports := [initPort pid],
    status := Status.stopped, initialized := false, loading := false }

/-- Embeds `self.name()`: `self._settings["name"]` rendered as a string. -/
def nameOf (d : Device) : String :=
  (match dget d.settings "name" with
   | some v => v
   | none => Val.null).pyStr

/-- The `"message"` field of a server result. Error results always carry a
message (modelled from the spec §7: the server-error notification carries
the server's message; the transport collaborator builds such results). -/
def msgOf (result : Mapping) : String :=
  (match dget result "message" with
   | some v => v
   | none => Val.null).pyStr

/-- An effect that leaves the device unchanged and does nothing. -/
def noEff (d : Device) : Eff := ⟨d, [], [], []⟩

/-- Embeds `VPCSDevice.delete`: emit `delete_links_signal`; if a vm_id is set
(Python truthiness) issue the async DELETE, otherwise emit
`deleted_signal` and call `removeNode` at once. -/
def deleteOp (d : Device) : Eff :=
  if d.vm_id.truthy then
    ⟨d, [Sig.deleteLinksSig], [],
     [Req.delete_ ("/vpcs/vms/" ++ d.vm_id.pyStr)]⟩
  else
    ⟨d, [Sig.deleteLinksSig, Sig.deletedSig], [Call.removeNode], []⟩

/-- Embeds `VPCSDevice._deleteCallback`: on error emit `server_error_signal`;
in every case emit `deleted_signal` and call `removeNode`. -/
def deleteCallback (d : Device) (result : Mapping) (error : Bool) : Eff :=
  if error then
    ⟨d, [Sig.serverErrorSig (msgOf result), Sig.deletedSig], [Call.removeNode], []⟩
  else
    ⟨d, [Sig.deletedSig], [Call.removeNode], []⟩

/-- Sequencing of effects: run the callback on the state the first
operation left, concatenating the emissions. -/
def Eff.andThen (e : Eff) (f : Device → Eff) : Eff :=
  let e' := f e.dev
  ⟨e'.dev, e.sigs ++ e'.sigs, e.calls ++ e'.calls, e.reqs ++ e'.reqs⟩

/-- The complete `delete()` interaction: the synchronous part, followed by
`_deleteCallback (result, error)` exactly when a DELETE request was issued
(the server invokes the completion handler of each request, spec §5/§6). -/
def deleteFull (d : Device) (result : Mapping) (error : Bool) : Eff :=
  let e := deleteOp d
  if e.reqs = [] then e else e.andThen (fun d' => deleteCallback d' result error)

/-- The path `additional_settings["script_file"]` names. -/
def scriptFilePath (m : Mapping) : String :=
  (match dget m "script_file" with
   | some v => v
   | none => Val.null).pyStr

/-- The in-place mutation `setup` performs on its `additional_settings`
argument: if a `"script_file"` key is present, try to read the file into a
`"startup_script"` entry (an `OSError` is only logged) and delete the
`"script_file"` key; then, if a `"startup_script"` key is present and a
vm_id was given (`vm_id is not None`, i.e. not `Val.null`), delete it. -/
def setupMutate (env : Env) (vm_id : Val) (m : Mapping) : Mapping :=
  let m1 :=
    if dmem m "script_file" then
      ddel (match env.readFile (scriptFilePath m) with
            | some content => dset m "startup_script" (Val.str content)
            | none => m) "script_file"
    else m
  if dmem m1 "startup_script" ∧ vm_id ≠ Val.null then ddel m1 "startup_script" else m1

/-- Python `params.update(other)`: fold the entries of `other` into `params`. -/
def dupdate (m other : Mapping) : Mapping :=
  other.foldl (fun acc kv => dset acc kv.1 kv.2) m

/-- Embeds `VPCSDevice.setup`: allocate a name if none was given (aborting with an
error signal when none can be allocated), build the creation parameters
(name, project id, vm_id when truthy, the processed additional settings)
and POST them. Returns the effects and the `additional_settings` mapping as
the caller sees it after the call (the dict is mutated in place). -/
def setupOp (env : Env) (d : Device) (name : Val) (vm_id : Val)
    (additional_settings : Mapping) : Eff × Mapping :=
  let name := if name.truthy then name
    else match env.allocateName "PC" with
         | some s => Val.str s
         | none => Val.null
  if name.truthy then
    let params : Mapping := [("name", name), ("project_id", d.projectId)]
    let params := if vm_id.truthy then dset params "vm_id" vm_id else params
    let settings' := setupMutate env vm_id additional_settings
    let params := dupdate params settings'
    (⟨d, [], [], [Req.post "/vpcs/vms" params]⟩, settings')
  else
    (⟨d, [Sig.errorSig "could not allocate a name for this VPCS device"], [], []⟩,
     additional_settings)

/-- One iteration of the settings-reconciliation loop of `_setupCallback`:
`if name in self._settings and self._settings[name] != value:
self._settings[name] = value`. -/
def reconcileStep (acc : Mapping) (kv : String × Val) : Mapping :=
  match dget acc kv.1 with
  | some old => if old ≠ kv.2 then dset acc kv.1 kv.2 else acc
  | none => acc

/-- The settings-reconciliation loop of `_setupCallback`:
`for name, value in result.items(): ...`. -/
def reconcile (s result : Mapping) : Mapping :=
  result.foldl reconcileStep s

/-- Embeds `VPCSDevice._setupCallback`: on error emit `server_error_signal` and
return; otherwise store `result["vm_id"]` (`none` models the `KeyError`
raised when the key is absent — no state has been mutated at that point),
reconcile the settings with the server's response, then either emit
`updated_signal` (when loading) or mark the device initialized, emit
`created_signal` and register with the module. -/
def setupCallback (d : Device) (result : Mapping) (error : Bool) : Option Eff :=
  if error then some ⟨d, [Sig.serverErrorSig (msgOf result)], [], []⟩
  else
    match dget result "vm_id" with
    | none => none
    | some v =>
      let d := { d with vm_id := v, settings := reconcile d.settings result }
      if d.loading then some ⟨d, [Sig.updatedSig], [], []⟩
      else some ⟨{ d with initialized := true }, [Sig.createdSig], [Call.addNode], []⟩

/-- One iteration of `update`'s diff loop: `if name in self._settings and
self._settings[name] != value: params[name] = value`. -/
def updateParamsStep (settings : Mapping) (acc : Mapping) (kv : String × Val) :
    Mapping :=
  match dget settings kv.1 with
  | some old => if old ≠ kv.2 then dset acc kv.1 kv.2 else acc
  | none => acc

/-- The diff `update` sends: the entries of `new_settings` whose key is
already in the device settings with a different value. -/
def updateParams (d : Device) (new_settings : Mapping) : Mapping :=
  new_settings.foldl (updateParamsStep d.settings) []

/-- Embeds `VPCSDevice.update`: abort with an error signal if the new name differs
from the current one and is already allocated to another node
(`hasAllocatedName` lives on the `Node` base class — modelled from the
spec §6 as the name-allocator oracle); otherwise PUT the diff. -/
def updateOp (env : Env) (d : Device) (new_settings : Mapping) : Eff :=
  if (match dget new_settings "name" with
      | some nv => decide (nv ≠ Val.str (nameOf d)) && env.hasAllocatedName nv
      | none => false) then
    ⟨d, [Sig.errorSig ("Name \"" ++
        (match dget new_settings "name" with
         | some nv => nv
         | none => Val.null).pyStr ++ "\" is already used by another node")], [], []⟩
  else
    ⟨d, [], [],
     [Req.put ("/vpcs/vms/" ++ d.vm_id.pyStr) (updateParams d new_settings)]⟩

/-- Result of the `_updateCallback` reconciliation loop: new settings,
whether anything changed, and the `updateAllocatedName` calls made. -/
structure URes where
  settings : Mapping
  updated : Bool
  calls : List Call
deriving DecidableEq, Repr

/-- One iteration of the `_updateCallback` loop: update a recognized
changed key, renaming the allocated name when the `"name"` key changes. -/
def updateReconcileStep (acc : URes) (kv : String × Val) : URes :=
  match dget acc.settings kv.1 with
  | some old =>
    if old ≠ kv.2 then
      { settings := dset acc.settings kv.1 kv.2, updated := true,
        calls := acc.calls ++
          if kv.1 = "name" then [Call.updateAllocatedName kv.2] else [] }
    else acc
  | none => acc

/-- The `_updateCallback` loop: `for name, value in result.items(): ...`. -/
def updateReconcile (s result : Mapping) : URes :=
  result.foldl updateReconcileStep ⟨s, false, []⟩

/-- Embeds `VPCSDevice._updateCallback`: on error emit `server_error_signal`;
otherwise reconcile, and emit `updated_signal` when something changed or a
load is in progress. -/
def updateCallback (d : Device) (result : Mapping) (error : Bool) : Eff :=
  if error then ⟨d, [Sig.serverErrorSig (msgOf result)], [], []⟩
  else
    let r := updateReconcile d.settings result
    let d := { d with settings := r.settings }
    if r.updated || d.loading then ⟨d, [Sig.updatedSig], r.calls, []⟩
    else ⟨d, [], r.calls, []⟩

/-- Embeds `VPCSDevice.start`: nothing but a debug log when already started,
otherwise POST the start request. -/
def startOp (d : Device) : Eff :=
  if d.status = Status.started then noEff d
  else ⟨d, [], [], [Req.post ("/vpcs/vms/" ++ d.vm_id.pyStr ++ "/start") []]⟩

/-- Embeds `VPCSDevice._startCallback`: on error emit `server_error_signal`;
otherwise set the device and every port to started and emit
`started_signal`. -/
def startCallback (d : Device) (result : Mapping) (error : Bool) : Eff :=
  if error then ⟨d, [Sig.serverErrorSig (msgOf result)], [], []⟩
  else
    let d := { d with status := Status.started }
    let d := { d with ports := d.ports.map (fun p => { p with pstatus := Status.started }) }
    ⟨d, [Sig.startedSig], [], []⟩

/-- Embeds `VPCSDevice.stop`: nothing but a debug log when already stopped,
otherwise POST the stop request. -/
def stopOp (d : Device) : Eff :=
  if d.status = Status.stopped then noEff d
  else ⟨d, [], [], [Req.post ("/vpcs/vms/" ++ d.vm_id.pyStr ++ "/stop") []]⟩

/-- Embeds `VPCSDevice._stopCallback`: on error emit `server_error_signal`;
otherwise set the device and every port to stopped and emit
`stopped_signal`. -/
def stopCallback (d : Device) (result : Mapping) (error : Bool) : Eff :=
  if error then ⟨d, [Sig.serverErrorSig (msgOf result)], [], []⟩
  else
    let d := { d with status := Status.stopped }
    let d := { d with ports := d.ports.map (fun p => { p with pstatus := Status.stopped }) }
    ⟨d, [Sig.stoppedSig], [], []⟩

/-- Embeds `VPCSDevice.reload`: POST the reload request (no guard). -/
def reloadOp (d : Device) : Eff :=
  ⟨d, [], [], [Req.post ("/vpcs/vms/" ++ d.vm_id.pyStr ++ "/reload") []]⟩

/-- Embeds `VPCSDevice._reloadCallback`: on error emit `server_error_signal`;
on success only log. -/
def reloadCallback (d : Device) (result : Mapping) (error : Bool) : Eff :=
  if error then ⟨d, [Sig.serverErrorSig (msgOf result)], [], []⟩
  else noEff d

/-- Embeds `VPCSDevice._allocateUDPPortCallback`: on error emit
`server_error_signal`; otherwise emit `allocate_udp_nio_signal` with the
allocated port. -/
def allocateUDPPortCallback (d : Device) (portId : Nat) (result : Mapping)
    (error : Bool) : Eff :=
  if error then ⟨d, [Sig.serverErrorSig (msgOf result)], [], []⟩
  else
    ⟨d, [Sig.allocateUdpNioSig portId
          (match dget result "udp_port" with
           | some (Val.int n) => n
           | _ => 0)], [], []⟩

/-- Embeds `VPCSDevice._addNIOCallback`: on error emit `server_error_signal` then
`nio_cancel_signal`; otherwise emit `nio_signal`. -/
def addNIOCallback (d : Device) (portId : Nat) (result : Mapping)
    (error : Bool) : Eff :=
  if error then
    ⟨d, [Sig.serverErrorSig (msgOf result), Sig.nioCancelSig], [], []⟩
  else ⟨d, [Sig.nioSig portId], [], []⟩

/-- Embeds `VPCSDevice._deleteNIOCallback`: on error emit `server_error_signal`;
on success only log. -/
def deleteNIOCallback (d : Device) (result : Mapping) (error : Bool) : Eff :=
  if error then ⟨d, [Sig.serverErrorSig (msgOf result)], [], []⟩
  else noEff d

/-- The record `Port.dump()` produces for a port. The `Port` class is
outside the embedded file; modelled from the spec §4.3 and from the fields
`_updatePortSettings` reads back (`name`, `id`, `port_number`). -/
structure PortRecord where
  pname : String
  pid : Nat
  portNumber : Nat
deriving DecidableEq, Repr

/-- Embeds `port.dump()` (modelled from the spec, see `PortRecord`). -/
def PortState.dump (p : PortState) : PortRecord :=
  ⟨p.pname, p.pid, p.portNumber⟩

/-- The topology record `VPCSDevice.dump()` produces. `vpcs_id` is the
older field name `load` still accepts; `dump` never writes it. An empty
`ports` list models the absent `"ports"` key. -/
structure NodeRecord where
  nid : Nat
  vm_id : Val
  typeTag : String
  description : String
  properties : Mapping
  serverId : Nat
  ports : List PortRecord
  vpcs_id : Option Val
deriving DecidableEq, Repr

/-- Embeds `VPCSDevice.dump`: id, vm_id, class name, description, the settings
that differ from the defaults snapshot (in settings order), the server id
and the port records. -/
def dumpOp (d : Device) : NodeRecord :=
  { nid := d.nid, vm_id := d.vm_id, typeTag := "VPCSDevice",
    description := "VPCS device",
    properties := d.settings.filter (fun kv =>
      dmem d.defaults kv.1 && decide (dget d.defaults kv.1 ≠ some kv.2)),
    serverId := d.serverId,
    ports := d.ports.map PortState.dump,
    vpcs_id := none }

/-- Embeds `VPCSDevice.load`: recover the vm_id (preferring a truthy legacy
`vpcs_id`), pop `"name"` out of the properties (`none` models the
`KeyError` when it is absent), connect `updated_signal` to
`_updatePortSettings`, set `_loading`, set the name and run `setup`.
`Node.setName` is outside the embedded file; modelled from the spec: it
sets the device's name, which `name()` reads from the settings mapping. -/
def loadOp (env : Env) (d : Device) (rec : NodeRecord) : Option (Eff × Mapping) :=
  let vm := match rec.vpcs_id with
    | some v => if v.truthy then v else rec.vm_id
    | none => rec.vm_id
  match dget rec.properties "name" with
  | none => none
  | some nameVal =>
    let settings := ddel rec.properties "name"
    let d := { d with loading := true }
    let d := { d with settings := dset d.settings "name" nameVal }
    some (setupOp env d nameVal vm settings)

/-- Embeds `VPCSDevice._updatePortSettings`: give each local port the name and id
of every saved port record with the same port number (the nested loop of
the source; with one port and one record this is a simple match), then mark
the device initialized, emit `created_signal`, register with the module and
clear the loading flag. -/
def updatePortSettings (d : Device) (rec : NodeRecord) : Eff :=
  let ports := d.ports.map (fun p =>
    rec.ports.foldl (fun q tp =>
      if tp.portNumber = q.portNumber then
        { q with pname := tp.pname, pid := tp.pid }
      else q) p)
  ⟨{ d with ports := ports, initialized := true, loading := false },
   [Sig.createdSig], [Call.addNode], []⟩

/-- The complete load interaction for a saved record `rec`: `load` (which
issues `setup`'s POST), then `_setupCallback` with the server's successful
response `echo`; since `_loading` is set, the callback emits
`updated_signal`, to which `load` connected `_updatePortSettings`, so that
runs next. `none` models an exception (missing `"name"` in the record's
properties, or a response without `"vm_id"`). -/
def loadRoundTrip (env : Env) (fresh : Device) (rec : NodeRecord)
    (echo : Mapping) : Option Eff :=
  match loadOp env fresh rec with
  | none => none
  | some (e1, _) =>
    match setupCallback e1.dev echo false with
    | none => none
    | some e2 =>
      some ((e1.andThen (fun _ => e2)).andThen (fun d' => updatePortSettings d' rec))

/-- Embeds `VPCSDevice._exportConfigCallback` (the stored
`self._config_export_path` is passed explicitly): on error emit
`server_error_signal`; otherwise, when the result has a `startup_script`
and the stored path is truthy, write it, catching the `OSError` of a
failing write and surfacing it as an `error_signal`. -/
def exportConfigCallback (env : Env) (d : Device) (exportPath : String)
    (result : Mapping) (error : Bool) : Eff :=
  if error then ⟨d, [Sig.serverErrorSig (msgOf result)], [], []⟩
  else
    if dmem result "startup_script" ∧ exportPath ≠ "" then
      if env.writeFile exportPath
          ((match dget result "startup_script" with
            | some v => v
            | none => Val.null).pyStr) then
        noEff d
      else
        ⟨d, [Sig.errorSig ("could not export the script file to " ++ exportPath)],
         [], []⟩
    else noEff d

/-- Embeds `VPCSDevice._exportConfigToDirectoryCallback` (the stored
`self._export_directory` is passed explicitly; the callback also resets
that transient field, which has no further observable effect here): on
error emit `server_error_signal`; otherwise, when the result has a
`startup_script`, write it to `{dir}/{normalizedName}_startup.vpc`,
catching a failing write and surfacing it as an `error_signal`. -/
def exportConfigToDirectoryCallback (env : Env) (d : Device)
    (directory : String) (result : Mapping) (error : Bool) : Eff :=
  if error then ⟨d, [Sig.serverErrorSig (msgOf result)], [], []⟩
  else
    if dmem result "startup_script" then
      let configPath := directory ++ "/" ++ env.normalizeFilename (nameOf d)
        ++ "_startup.vpc"
      if env.writeFile configPath
          ((match dget result "startup_script" with
            | some v => v
            | none => Val.null).pyStr) then
        noEff d
      else
        ⟨d, [Sig.errorSig ("could not export the script file to " ++ configPath)],
         [], []⟩
    else noEff d

/-- Embeds `VPCSDevice.importConfig`: `open(path)` is not wrapped in a handler, so
a failing read raises out of the method (`Except.error`); on success push
the content as the `startup_script` setting via `update`. -/
def importConfig (env : Env) (d : Device) (path : String) : Except String Eff :=
  match env.readFile path with
  | none => Except.error ("OSError: could not open " ++ path)
  | some content =>
    Except.ok (updateOp env d [("startup_script", Val.str content)])

/-- Embeds `VPCSDevice.importConfigFromDirectory`: `os.listdir` is not wrapped in
a handler, so a failing listing raises out of the method; when the listing
contains `{normalizedName}_startup.vpc`, put its path into `new_settings`
under `"script_file"` and call `update`; otherwise emit `warning_signal`
and, `new_settings` being empty, skip `update`. -/
def importConfigFromDirectory (env : Env) (d : Device) (directory : String) :
    Except String Eff :=
  match env.listdir directory with
  | none => Except.error ("OSError: could not list " ++ directory)
  | some contents =>
    let script_file := env.normalizeFilename (nameOf d) ++ "_startup.vpc"
    if script_file ∈ contents then
      Except.ok (updateOp env d
        [("script_file", Val.str (directory ++ "/" ++ script_file))])
    else
      Except.ok ⟨d,
        [Sig.warningSig ("no script file could be found, expected file name: "
          ++ script_file)], [], []⟩

/-- A tiny heap of Python dict objects, to make the aliasing of `setup`'s
`additional_settings` parameter expressible: references index dict values. -/
structure PyHeap where
  dicts : List (Nat × Mapping)
deriving DecidableEq, Repr

/-- Heap lookup: the dict stored under a reference. -/
def hget (hs : List (Nat × Mapping)) (r : Nat) : Option Mapping :=
  match hs with
  | [] => none
  | (r', m) :: rest => if r' = r then some m else hget rest r

/-- Heap store: overwrite the dict stored under a reference (appending a
fresh cell when the reference is new). -/
def hset (hs : List (Nat × Mapping)) (r : Nat) (m : Mapping) :
    List (Nat × Mapping) :=
  match hs with
  | [] => [(r, m)]
  | (r', m') :: rest => if r' = r then (r, m) :: rest else (r', m') :: hset rest r m

/-- The dict a reference denotes (an unknown reference denotes `{}`). -/
def PyHeap.get (h : PyHeap) (r : Nat) : Mapping :=
  (hget h.dicts r).getD []

/-- Overwrite the dict a reference denotes. -/
def PyHeap.set (h : PyHeap) (r : Nat) (m : Mapping) : PyHeap :=
  ⟨hset h.dicts r m⟩

/-- The dict reference a call to `setup` operates on: the caller's argument
when one is passed, else the single default-argument dict `defRef`,
allocated once when `def setup(..., additional_settings={})` is evaluated
and shared by every call that omits the argument. -/
def setupArgRef (defRef : Nat) (arg : Option Nat) : Nat :=
  arg.getD defRef

/-- A call to `setup` as seen by the heap: the dict `setupArgRef` picks is
mutated in place by `setupMutate`. -/
def setupCallHeap (env : Env) (vm_id : Val) (h : PyHeap) (defRef : Nat)
    (arg : Option Nat) : PyHeap :=
  let r := setupArgRef defRef arg
  h.set r (setupMutate env vm_id (h.get r))

/-- One device operation or callback delivery, with the data the server or
caller supplies. Covers every method of the embedded file that can touch
the device state, so a trace is an arbitrary interleaving of calls and
completions. -/
inductive Op where
  | doSetup (name : Val) (vm_id : Val) (additional_settings : Mapping)
  | setupCb (result : Mapping) (error : Bool)
  | doUpdate (new_settings : Mapping)
  | updateCb (result : Mapping) (error : Bool)
  | doDelete
  | deleteCb (result : Mapping) (error : Bool)
  | doStart
  | startCb (result : Mapping) (error : Bool)
  | doStop
  | stopCb (result : Mapping) (error : Bool)
  | doReload
  | reloadCb (result : Mapping) (error : Bool)
  | udpCb (portId : Nat) (result : Mapping) (error : Bool)
  | nioCb (portId : Nat) (result : Mapping) (error : Bool)
  | delNioCb (result : Mapping) (error : Bool)
  | exportCb (exportPath : String) (result : Mapping) (error : Bool)
  | exportDirCb (dir : String) (result : Mapping) (error : Bool)
  | doImport (path : String)
  | doImportDir (dir : String)
  | portCb (rec : NodeRecord)

/-- The device state an operation leaves behind. An operation that raises
(`setupCb` without a `"vm_id"` key, a failing `doImport`/`doImportDir`)
leaves the state it had reached when it raised — in each such case no
device field had been mutated yet. -/
def Op.step (env : Env) (d : Device) : Op → Device
  | doSetup name vm_id as => (setupOp env d name vm_id as).1.dev
  | setupCb r e =>
    match setupCallback d r e with
    | some eff => eff.dev
    | none => d
  | doUpdate ns => (updateOp env d ns).dev
  | updateCb r e => (updateCallback d r e).dev
  | doDelete => (deleteOp d).dev
  | deleteCb r e => (deleteCallback d r e).dev
  | doStart => (startOp d).dev
  | startCb r e => (startCallback d r e).dev
  | doStop => (stopOp d).dev
  | stopCb r e => (stopCallback d r e).dev
  | doReload => (reloadOp d).dev
  | reloadCb r e => (reloadCallback d r e).dev
  | udpCb p r e => (allocateUDPPortCallback d p r e).dev
  | nioCb p r e => (addNIOCallback d p r e).dev
  | delNioCb r e => (deleteNIOCallback d r e).dev
  | exportCb p r e => (exportConfigCallback env d p r e).dev
  | exportDirCb dir r e => (exportConfigToDirectoryCallback env d dir r e).dev
  | doImport p =>
    match importConfig env d p with
    | Except.ok eff => eff.dev
    | Except.error _ => d
  | doImportDir dir =>
    match importConfigFromDirectory env d dir with
    | Except.ok eff => eff.dev
    | Except.error _ => d
  | portCb rec => (updatePortSettings d rec).dev

/-- Run a sequence of operations. -/
def runOps (env : Env) (d : Device) (ops : List Op) : Device :=
  ops.foldl (Op.step env) d

/-- An environment with trivial oracles: no names allocated, an empty
read-only filesystem. -/
def env0 : Env :=
  { allocateName := fun _ => none, hasAllocatedName := fun _ => false,
    readFile := fun _ => none, listdir := fun _ => none,
    writeFile := fun _ _ => false, normalizeFilename := fun s => s }

/-- An environment in which the name "PC2" is already allocated. -/
def envTaken : Env :=
  { env0 with hasAllocatedName := fun v => v = Val.str "PC2" }

/-- A device that the start callback has marked started. -/
def devStarted : Device :=
  { initDevice 0 Val.null 0 0 with status := Status.started }

/-- Embeds `self.console()`: `self._settings["console"]`. -/
def consoleOf (d : Device) : Option Val :=
  dget d.settings "console"

/-- An initialized device named PC1 whose server-side id is "abc". -/
def devPC1 : Device :=
  { initDevice 0 Val.null 0 0 with
    vm_id := Val.str "abc", initialized := true,
    settings := [("name", Val.str "PC1"), ("script_file", Val.str ""),
                 ("startup_script", Val.null), ("console", Val.null)] }

/-- An environment whose directory listings contain `PC1_startup.vpc` but
in which every file read fails. -/
def env8 : Env :=
  { env0 with listdir := fun _ => some ["PC1_startup.vpc"] }

/-- An initialized device named R1 with a startup script and a console
port, for the dump/load round-trip witness. -/
def devR1 : Device :=
  { initDevice 3 (Val.str "p1") 2 7 with
    vm_id := Val.str "abc", initialized := true,
    settings := [("name", Val.str "R1"), ("script_file", Val.str ""),
                 ("startup_script", Val.str "ip 10.0.0.1"),
                 ("console", Val.int 5000)] }

/-- An environment in which every file read yields "ip dhcp". -/
def envRead : Env :=
  { env0 with readFile := fun _ => some "ip dhcp" }

/-! ## Dictionary lemmas -/

@[simp] theorem keysOf_nil : keysOf [] = [] := rfl

@[simp] theorem keysOf_cons (p : String × Val) (m : Mapping) :
    keysOf (p :: m) = p.1 :: keysOf m := rfl

/-- Updating an existing key leaves the key list unchanged. -/
theorem keysOf_dset_of_mem (m : Mapping) (k : String) (v : Val)
    (h : dmem m k = true) : keysOf (dset m k v) = keysOf m := by
  induction m with
  | nil => simp [dmem, dget] at h
  | cons p rest ih =>
    obtain ⟨k', v'⟩ := p
    by_cases hk : k' = k
    · subst hk; simp [dset]
    · simp [dmem, dget, hk] at h
      simp [dset, hk, ih h]

/-- Lookup after `dset` at the key just written. -/
theorem dget_dset_self (m : Mapping) (k : String) (v : Val) :
    dget (dset m k v) k = some v := by
  induction m with
  | nil => simp [dset, dget]
  | cons p rest ih =>
    obtain ⟨k', v'⟩ := p
    by_cases hk : k' = k
    · subst hk; simp [dset, dget]
    · simp [dset, dget, hk, ih]

/-- Lookup after `dset` at a different key. -/
theorem dget_dset_ne (m : Mapping) (k k' : String) (v : Val) (h : k ≠ k') :
    dget (dset m k v) k' = dget m k' := by
  induction m with
  | nil => simp [dset, dget, h]
  | cons p rest ih =>
    obtain ⟨k₀, v₀⟩ := p
    by_cases hk : k₀ = k
    · subst hk
      simp [dset, dget, h]
    · simp [dset, dget, hk]
      by_cases hk' : k₀ = k'
      · simp [hk']
      · simp [hk', ih]

/-- A key that is not in the key list is not found. -/
theorem dget_eq_none_of_not_mem_keys (m : Mapping) (k : String)
    (h : k ∉ keysOf m) : dget m k = none := by
  induction m with
  | nil => rfl
  | cons p rest ih =>
    obtain ⟨k₀, v₀⟩ := p
    simp only [keysOf_cons, List.mem_cons, not_or] at h
    have hne : k₀ ≠ k := fun hk => h.1 hk.symm
    simp [dget, hne, ih h.2]

/-- Deleting one key does not change lookups of another. -/
theorem dget_ddel_ne (m : Mapping) (k k' : String) (h : k ≠ k') :
    dget (ddel m k) k' = dget m k' := by
  induction m with
  | nil => rfl
  | cons p rest ih =>
    obtain ⟨k₀, v₀⟩ := p
    by_cases hk : k₀ = k
    · subst hk; simp [ddel, dget, h]
    · simp [ddel, dget, hk, ih]

/-- In a dict with distinct keys, the deleted key is gone. -/
theorem dget_ddel_self (m : Mapping) (k : String)
    (hnd : (keysOf m).Nodup) : dget (ddel m k) k = none := by
  induction m with
  | nil => rfl
  | cons p rest ih =>
    obtain ⟨k₀, v₀⟩ := p
    simp only [keysOf_cons, List.nodup_cons] at hnd
    by_cases hk : k₀ = k
    · simp only [ddel, if_pos hk]
      exact dget_eq_none_of_not_mem_keys rest k (hk ▸ hnd.1)
    · simp [ddel, dget, hk, ih hnd.2]

/-- A key found after `dset` was the written key or was already there. -/
theorem dmem_dset (m : Mapping) (k k' : String) (v : Val)
    (h : dmem (dset m k v) k' = true) : k' = k ∨ dmem m k' = true := by
  by_cases hk : k = k'
  · exact Or.inl hk.symm
  · right
    rwa [dmem, dget_dset_ne m k k' v hk] at h

/-- One reconciliation step only updates keys in place. -/
theorem keysOf_reconcileStep (s : Mapping) (kv : String × Val) :
    keysOf (reconcileStep s kv) = keysOf s := by
  unfold reconcileStep
  cases hg : dget s kv.1 with
  | none => rfl
  | some old =>
    by_cases hne : old = kv.2
    · simp [hne]
    · simp [hne, keysOf_dset_of_mem s kv.1 kv.2 (by simp [dmem, hg])]

/-- The `_setupCallback` reconciliation loop never adds or removes a
settings key. -/
theorem keysOf_reconcile (s r : Mapping) :
    keysOf (reconcile s r) = keysOf s := by
  induction r generalizing s with
  | nil => rfl
  | cons kv rest ih =>
    show keysOf (List.foldl reconcileStep (reconcileStep s kv) rest) = keysOf s
    rw [show List.foldl reconcileStep (reconcileStep s kv) rest
          = reconcile (reconcileStep s kv) rest from rfl,
        ih, keysOf_reconcileStep]

/-- One `_updateCallback` step only updates keys in place. -/
theorem keysOf_updateReconcileStep (acc : URes) (kv : String × Val) :
    keysOf (updateReconcileStep acc kv).settings = keysOf acc.settings := by
  unfold updateReconcileStep
  cases hg : dget acc.settings kv.1 with
  | none => rfl
  | some old =>
    by_cases hne : old = kv.2
    · simp [hne]
    · simp [hne, keysOf_dset_of_mem acc.settings kv.1 kv.2 (by simp [dmem, hg])]

/-- The `_updateCallback` loop never adds or removes a settings key. -/
theorem keysOf_updateReconcile (s r : Mapping) :
    keysOf (updateReconcile s r).settings = keysOf s := by
  suffices h : ∀ acc : URes,
      keysOf (List.foldl updateReconcileStep acc r).settings = keysOf acc.settings by
    exact h ⟨s, false, []⟩
  induction r with
  | nil => intro acc; rfl
  | cons kv rest ih =>
    intro acc
    show keysOf (List.foldl updateReconcileStep (updateReconcileStep acc kv) rest).settings
      = keysOf acc.settings
    rw [ih (updateReconcileStep acc kv), keysOf_updateReconcileStep]

/-- Every key of `update`'s diff is a key of the current settings. -/
theorem dmem_updateParams (d : Device) (ns : Mapping) (k : String)
    (h : dmem (updateParams d ns) k = true) : dmem d.settings k = true := by
  suffices h' : ∀ acc : Mapping,
      dmem (List.foldl (updateParamsStep d.settings) acc ns) k = true →
      dmem acc k = true ∨ dmem d.settings k = true by
    rcases h' [] h with h'' | h''
    · simp [dmem, dget] at h''
    · exact h''
  clear h
  induction ns with
  | nil => intro acc hh; exact Or.inl hh
  | cons kv rest ih =>
    intro acc hh
    rcases ih (updateParamsStep d.settings acc kv) hh with h1 | h1
    · unfold updateParamsStep at h1
      cases hg : dget d.settings kv.1 with
      | none => rw [hg] at h1; exact Or.inl h1
      | some old =>
        rw [hg] at h1
        by_cases hne : old = kv.2
        · simp only [hne, ne_eq, not_true_eq_false, if_false] at h1
          exact Or.inl h1
        · simp only [ne_eq, hne, not_false_eq_true, if_true] at h1
          rcases dmem_dset acc kv.1 k kv.2 h1 with rfl | hm
          · exact Or.inr (by simp [dmem, hg])
          · exact Or.inl hm
    · exact Or.inr h1

/-- Lemma: `setup` does not change the device state (only its callback does). -/
theorem setupOp_dev (env : Env) (d : Device) (n v : Val) (as : Mapping) :
    (setupOp env d n v as).1.dev = d := by
  simp only [setupOp]
  repeat' split
  all_goals rfl

/-- Lemma: `update` does not change the device state (only its callback does). -/
theorem updateOp_dev (env : Env) (d : Device) (ns : Mapping) :
    (updateOp env d ns).dev = d := by
  simp only [updateOp]
  split <;> rfl

/-- Lemma: `delete` leaves the device state itself unchanged. -/
theorem deleteOp_dev (d : Device) : (deleteOp d).dev = d := by
  simp only [deleteOp]
  split <;> rfl

/-- Lemma: `_deleteCallback` leaves the device state unchanged. -/
theorem deleteCallback_dev (d : Device) (r : Mapping) (e : Bool) :
    (deleteCallback d r e).dev = d := by
  simp only [deleteCallback]
  split <;> rfl

/-- Lemma: `importConfig` either raises or behaves as an `update` call. -/
theorem importConfig_dev (env : Env) (d : Device) (p : String) (eff : Eff)
    (h : importConfig env d p = Except.ok eff) : eff.dev = d := by
  simp only [importConfig] at h
  cases hr : env.readFile p with
  | none => rw [hr] at h; cases h
  | some c =>
    rw [hr] at h
    cases h
    exact updateOp_dev env d _

/-- Lemma: `importConfigFromDirectory` either raises, warns, or behaves as an
`update` call; the device state is unchanged in every case. -/
theorem importConfigFromDirectory_dev (env : Env) (d : Device) (dir : String)
    (eff : Eff) (h : importConfigFromDirectory env d dir = Except.ok eff) :
    eff.dev = d := by
  simp only [importConfigFromDirectory] at h
  cases hr : env.listdir dir with
  | none => rw [hr] at h; cases h
  | some contents =>
    rw [hr] at h
    simp only at h
    split at h
    · cases h
      exact updateOp_dev env d _
    · cases h
      rfl

/-- No operation adds or removes a settings key, and no operation after
construction ever touches the defaults snapshot. -/
theorem step_settings_keys (env : Env) (d : Device) (op : Op) :
    keysOf (Op.step env d op).settings = keysOf d.settings ∧
    (Op.step env d op).defaults = d.defaults := by
  cases op with
  | doSetup n v as =>
    simp [Op.step, setupOp_dev]
  | setupCb r e =>
    cases e with
    | true => simp [Op.step, setupCallback]
    | false =>
      simp only [Op.step, setupCallback, Bool.false_eq_true, if_false]
      cases hg : dget r "vm_id" with
      | none => exact ⟨rfl, rfl⟩
      | some v =>
        by_cases hl : d.loading <;> simp [hl, keysOf_reconcile]
  | doUpdate ns =>
    simp [Op.step, updateOp_dev]
  | updateCb r e =>
    cases e with
    | true => simp [Op.step, updateCallback]
    | false =>
      simp only [Op.step, updateCallback, Bool.false_eq_true, if_false]
      split <;> simp [keysOf_updateReconcile]
  | doDelete =>
    simp [Op.step, deleteOp_dev]
  | deleteCb r e =>
    simp [Op.step, deleteCallback_dev]
  | doStart =>
    simp only [Op.step, startOp, noEff]
    split <;> exact ⟨rfl, rfl⟩
  | startCb r e =>
    simp only [Op.step, startCallback]
    split <;> exact ⟨rfl, rfl⟩
  | doStop =>
    simp only [Op.step, stopOp, noEff]
    split <;> exact ⟨rfl, rfl⟩
  | stopCb r e =>
    simp only [Op.step, stopCallback]
    split <;> exact ⟨rfl, rfl⟩
  | doReload => exact ⟨rfl, rfl⟩
  | reloadCb r e =>
    simp only [Op.step, reloadCallback, noEff]
    split <;> exact ⟨rfl, rfl⟩
  | udpCb p r e =>
    simp only [Op.step, allocateUDPPortCallback]
    split <;> exact ⟨rfl, rfl⟩
  | nioCb p r e =>
    simp only [Op.step, addNIOCallback]
    split <;> exact ⟨rfl, rfl⟩
  | delNioCb r e =>
    simp only [Op.step, deleteNIOCallback, noEff]
    split <;> exact ⟨rfl, rfl⟩
  | exportCb p r e =>
    simp only [Op.step, exportConfigCallback, noEff]
    repeat' split
    all_goals exact ⟨rfl, rfl⟩
  | exportDirCb dir r e =>
    simp only [Op.step, exportConfigToDirectoryCallback, noEff]
    repeat' split
    all_goals exact ⟨rfl, rfl⟩
  | doImport p =>
    simp only [Op.step]
    cases hi : importConfig env d p with
    | ok eff => simp [importConfig_dev env d p eff hi]
    | error s => exact ⟨rfl, rfl⟩
  | doImportDir dir =>
    simp only [Op.step]
    cases hi : importConfigFromDirectory env d dir with
    | ok eff => simp [importConfigFromDirectory_dev env d dir eff hi]
    | error s => exact ⟨rfl, rfl⟩
  | portCb rec => exact ⟨rfl, rfl⟩

/-- Running any trace preserves both the settings key list and the
defaults snapshot. -/
theorem runOps_settings_keys (env : Env) (d : Device) (ops : List Op) :
    keysOf (runOps env d ops).settings = keysOf d.settings ∧
    (runOps env d ops).defaults = d.defaults := by
  induction ops generalizing d with
  | nil => exact ⟨rfl, rfl⟩
  | cons op rest ih =>
    have h := step_settings_keys env d op
    have h2 := ih (Op.step env d op)
    exact ⟨h2.1.trans h.1, h2.2.trans h.2⟩

/-! ## Claims -/

/-- C1: for every device state — whether or not a vm_id has been assigned,
and whether the remote delete completes with success or with error — the
`delete()` interaction emits exactly one `deleted` notification and makes
exactly one `removeNode` call on the owning module. -/
theorem delete_always_completes (d : Device) (result : Mapping) (error : Bool) :
    (deleteFull d result error).sigs.count Sig.deletedSig = 1 ∧
    (deleteFull d result error).calls.count Call.removeNode = 1 := by
  unfold deleteFull deleteOp deleteCallback Eff.andThen
  by_cases h : d.vm_id.truthy <;> cases error <;>
    simp [h, List.count_cons, List.count_nil]

/-- C2: over every operation trace, the settings key set stays the key set
of the defaults snapshot taken at construction (a key not present in the
settings is never stored), and `update` only puts keys already present in
the settings into the diff it sends. -/
theorem settings_keys_stable (env : Env) (d : Device) (ops : List Op)
    (h : keysOf d.settings = keysOf d.defaults) :
    keysOf (runOps env d ops).settings = keysOf (runOps env d ops).defaults ∧
    ∀ ns k, dmem (updateParams (runOps env d ops) ns) k = true →
      dmem (runOps env d ops).settings k = true := by
  obtain ⟨h1, h2⟩ := runOps_settings_keys env d ops
  exact ⟨by rw [h1, h2, h], fun ns k hk => dmem_updateParams _ ns k hk⟩

/-- Witness for C2: a fresh device run through a setup callback carrying an
unknown key keeps the default key set, and a name diff targets a stored key. -/
theorem settings_keys_stable_witness :
    keysOf (runOps env0 (initDevice 0 Val.null 0 0)
        [Op.setupCb [("vm_id", Val.str "abc"), ("unknown_key", Val.int 3)] false]).settings =
      keysOf (runOps env0 (initDevice 0 Val.null 0 0)
        [Op.setupCb [("vm_id", Val.str "abc"), ("unknown_key", Val.int 3)] false]).defaults ∧
    dmem (runOps env0 (initDevice 0 Val.null 0 0)
        [Op.setupCb [("vm_id", Val.str "abc"), ("unknown_key", Val.int 3)] false]).settings
      "name" = true :=
  ⟨(settings_keys_stable env0 (initDevice 0 Val.null 0 0)
      [Op.setupCb [("vm_id", Val.str "abc"), ("unknown_key", Val.int 3)] false]
      (by decide)).1,
   (settings_keys_stable env0 (initDevice 0 Val.null 0 0)
      [Op.setupCb [("vm_id", Val.str "abc"), ("unknown_key", Val.int 3)] false]
      (by decide)).2 [("name", Val.str "PC9")] "name" (by decide)⟩

/-- C5: a new-settings mapping whose name entry differs from the current
name and is allocated to another node makes `update` emit one error
notification, issue no request and leave the device (its settings
included) unchanged. -/
theorem update_name_collision (env : Env) (d : Device) (ns : Mapping) (nv : Val)
    (h1 : dget ns "name" = some nv) (h2 : nv ≠ Val.str (nameOf d))
    (h3 : env.hasAllocatedName nv = true) :
    updateOp env d ns =
      ⟨d, [Sig.errorSig ("Name \"" ++ nv.pyStr ++ "\" is already used by another node")],
       [], []⟩ := by
  simp [updateOp, h1, h2, h3]

theorem update_name_collision_witness :
    updateOp envTaken (initDevice 0 Val.null 0 0) [("name", Val.str "PC2")] =
      ⟨initDevice 0 Val.null 0 0,
       [Sig.errorSig "Name \"PC2\" is already used by another node"], [], []⟩ :=
  update_name_collision envTaken (initDevice 0 Val.null 0 0)
    [("name", Val.str "PC2")] (Val.str "PC2") (by decide) (by decide) (by decide)

/-- C6: `start()` on an already started device and `stop()` on an already
stopped device issue no request, emit nothing and change no state. -/
theorem start_stop_idempotent (d d' : Device)
    (h : d.status = Status.started) (h' : d'.status = Status.stopped) :
    startOp d = ⟨d, [], [], []⟩ ∧ stopOp d' = ⟨d', [], [], []⟩ := by
  constructor
  · simp [startOp, h, noEff]
  · simp [stopOp, h', noEff]

/-- Witness for C6 at concrete started and stopped devices. -/
theorem start_stop_idempotent_witness :
    startOp devStarted = ⟨devStarted, [], [], []⟩ ∧
    stopOp (initDevice 0 Val.null 0 0) = ⟨initDevice 0 Val.null 0 0, [], [], []⟩ :=
  start_stop_idempotent devStarted (initDevice 0 Val.null 0 0) rfl rfl

/-- Counterexample to C7 as stated: an error completion of `reload()` does
emit a notification — the `server_error_signal` — so the callback does not
only log. -/
theorem reload_callback_error_notifies :
    ¬ ((reloadCallback (initDevice 0 Val.null 0 0)
        [("message", Val.str "boom")] true).sigs = []) := by
  decide

/-- C7 (amended): the reload callback changes no local device state and
issues nothing; on success it emits no notification, and on error it emits
exactly one server-error notification. -/
theorem reload_callback_frame (d : Device) (result : Mapping) (error : Bool) :
    (reloadCallback d result error).dev = d ∧
    (reloadCallback d result error).reqs = [] ∧
    (reloadCallback d result error).calls = [] ∧
    (error = false → (reloadCallback d result error).sigs = []) ∧
    (error = true →
      (reloadCallback d result error).sigs = [Sig.serverErrorSig (msgOf result)]) := by
  cases error <;> simp [reloadCallback, noEff]

/-- Witness for C7 (amended) at a concrete device and both outcomes. -/
theorem reload_callback_frame_witness :
    (reloadCallback (initDevice 1 Val.null 0 0) [("message", Val.str "x")] true).sigs =
      [Sig.serverErrorSig "x"] ∧
    (reloadCallback (initDevice 1 Val.null 0 0) [] false).sigs = [] :=
  ⟨(reload_callback_frame (initDevice 1 Val.null 0 0)
      [("message", Val.str "x")] true).2.2.2.2 rfl,
   (reload_callback_frame (initDevice 1 Val.null 0 0) [] false).2.2.2.1 rfl⟩

/-- C4: a fresh device, `setup("R1", None, {})`, then the successful server
response `{"vm_id": "abc", "name": "R1", "console": 5000}`: the device
reports name "R1", vm_id "abc" and console 5000, and exactly one `created`
notification fires across the whole interaction. -/
theorem setup_create_example :
    (setupCallback (setupOp env0 (initDevice 1 (Val.str "p1") 0 0)
        (Val.str "R1") Val.null []).1.dev
        [("vm_id", Val.str "abc"), ("name", Val.str "R1"), ("console", Val.int 5000)]
        false).map (fun eff =>
      (nameOf eff.dev, eff.dev.vm_id, consoleOf eff.dev,
       ((setupOp env0 (initDevice 1 (Val.str "p1") 0 0) (Val.str "R1") Val.null
           []).1.sigs ++ eff.sigs).count Sig.createdSig))
      = some ("R1", Val.str "abc", some (Val.int 5000), 1) := by
  rfl

/-- Lemma: `update`'s diff for `{"script_file": path}` never contains a
`startup_script` entry. -/
theorem updateParams_script_file_no_startup (d : Device) (v : Val) :
    dmem (updateParams d [("script_file", v)]) "startup_script" = false := by
  simp only [updateParams, List.foldl_cons, List.foldl_nil, updateParamsStep]
  cases hg : dget d.settings "script_file" with
  | none => rfl
  | some old =>
    by_cases hne : old = v
    · simp [hne, dmem, dget]
    · simp [hne, dmem, dget, dset]

/-- Counterexample to C8 as stated: with the expected file present in the
listing but every file read failing, `importConfigFromDirectory` still
succeeds — it never reads the file — and the update it issues carries the
file's path under `"script_file"`, not the content under
`"startup_script"`. -/
theorem import_directory_pushes_path :
    importConfigFromDirectory env8 devPC1 "cfg" =
      Except.ok ⟨devPC1, [], [],
        [Req.put "/vpcs/vms/abc" [("script_file", Val.str "cfg/PC1_startup.vpc")]]⟩ ∧
    env8.readFile "cfg/PC1_startup.vpc" = none := by
  constructor
  · rfl
  · rfl

/-- C8 (amended): when the directory listing contains the expected file
`{normalizedName}_startup.vpc`, `importConfigFromDirectory` pushes the
file's path as the `script_file` setting via `update()` without reading the
file, so the diff sent never contains a `startup_script` entry; when the
expected file is absent it emits exactly one warning notification and calls
`update()` not at all. -/
theorem import_directory_behaviour (env : Env) (d : Device) (dir : String)
    (contents : List String) (h : env.listdir dir = some contents) :
    (env.normalizeFilename (nameOf d) ++ "_startup.vpc" ∈ contents →
      importConfigFromDirectory env d dir =
        Except.ok (updateOp env d
          [("script_file",
            Val.str (dir ++ "/" ++ (env.normalizeFilename (nameOf d) ++ "_startup.vpc")))]) ∧
      dmem (updateParams d
          [("script_file",
            Val.str (dir ++ "/" ++ (env.normalizeFilename (nameOf d) ++ "_startup.vpc")))])
        "startup_script" = false) ∧
    (env.normalizeFilename (nameOf d) ++ "_startup.vpc" ∉ contents →
      importConfigFromDirectory env d dir =
        Except.ok ⟨d,
          [Sig.warningSig ("no script file could be found, expected file name: "
            ++ (env.normalizeFilename (nameOf d) ++ "_startup.vpc"))], [], []⟩) := by
  constructor
  · intro hmem
    constructor
    · simp [importConfigFromDirectory, h, hmem]
    · exact updateParams_script_file_no_startup d _
  · intro hmem
    simp [importConfigFromDirectory, h, hmem]

/-- Witness for C8 (amended): a listing containing `PC1_startup.vpc` makes
the device push the path as `script_file` with no `startup_script` key. -/
theorem import_directory_behaviour_witness :
    importConfigFromDirectory env8 devPC1 "cfg" =
      Except.ok (updateOp env8 devPC1
        [("script_file", Val.str "cfg/PC1_startup.vpc")]) ∧
    dmem (updateParams devPC1
        [("script_file", Val.str "cfg/PC1_startup.vpc")]) "startup_script" = false :=
  (import_directory_behaviour env8 devPC1 "cfg" ["PC1_startup.vpc"] rfl).1
    (by decide)

/-- Counterexample to C9 as stated: a missing file makes `importConfig`
raise out of the method — the filesystem failure is not caught and no error
notification is emitted. -/
theorem import_config_propagates :
    importConfig env0 devPC1 "conf.vpc" =
      Except.error "OSError: could not open conf.vpc" := by
  rfl

/-- C9 (amended): the export callbacks catch a filesystem write failure and
surface it as a single error notification, but `importConfig` and
`importConfigFromDirectory` let a failing file read or directory listing
propagate to the caller as an uncaught `OSError`. -/
theorem fs_error_surfacing (env : Env) (d : Device) (path dir : String)
    (result : Mapping) :
    (∀ content, dget result "startup_script" = some content → path ≠ "" →
      env.writeFile path content.pyStr = false →
      exportConfigCallback env d path result false =
        ⟨d, [Sig.errorSig ("could not export the script file to " ++ path)],
         [], []⟩) ∧
    (∀ content, dget result "startup_script" = some content →
      env.writeFile (dir ++ "/" ++ env.normalizeFilename (nameOf d)
          ++ "_startup.vpc") content.pyStr = false →
      exportConfigToDirectoryCallback env d dir result false =
        ⟨d, [Sig.errorSig ("could not export the script file to "
            ++ (dir ++ "/" ++ env.normalizeFilename (nameOf d) ++ "_startup.vpc"))],
         [], []⟩) ∧
    (env.readFile path = none →
      importConfig env d path = Except.error ("OSError: could not open " ++ path)) ∧
    (env.listdir dir = none →
      importConfigFromDirectory env d dir =
        Except.error ("OSError: could not list " ++ dir)) := by
  refine ⟨?_, ?_, ?_, ?_⟩
  · intro content hc hp hw
    simp [exportConfigCallback, dmem, hc, hp, hw]
  · intro content hc hw
    simp [exportConfigToDirectoryCallback, dmem, hc, hw]
  · intro hr
    simp [importConfig, hr]
  · intro hl
    simp [importConfigFromDirectory, hl]

/-- Witness for C9 (amended): a failing write is surfaced as an error
notification while a failing read escapes `importConfig`. -/
theorem fs_error_surfacing_witness :
    exportConfigCallback env0 devPC1 "out.vpc"
        [("startup_script", Val.str "x")] false =
      ⟨devPC1, [Sig.errorSig "could not export the script file to out.vpc"],
       [], []⟩ ∧
    importConfig env0 devPC1 "out.vpc" =
      Except.error "OSError: could not open out.vpc" :=
  ⟨(fs_error_surfacing env0 devPC1 "out.vpc" "cfg"
      [("startup_script", Val.str "x")]).1 (Val.str "x") rfl (by decide) rfl,
   (fs_error_surfacing env0 devPC1 "out.vpc" "cfg"
      [("startup_script", Val.str "x")]).2.2.1 rfl⟩

/-- Key membership agrees with `dmem`. -/
theorem mem_keysOf_iff (m : Mapping) (k : String) :
    k ∈ keysOf m ↔ dmem m k = true := by
  induction m with
  | nil => simp [dmem, dget]
  | cons p rest ih =>
    obtain ⟨k₀, v₀⟩ := p
    by_cases hk : k₀ = k
    · subst hk; simp [dmem, dget]
    · simp [dmem, dget, hk, Ne.symm hk] at ih ⊢
      exact ih

/-- An absent key looks up to `none`. -/
theorem dget_none_of_dmem_false (m : Mapping) (k : String)
    (h : dmem m k = false) : dget m k = none := by
  unfold dmem at h
  cases hg : dget m k with
  | none => rfl
  | some v => rw [hg] at h; simp at h

/-- Writing a fresh key appends it. -/
theorem keysOf_dset_of_not_mem (m : Mapping) (k : String) (v : Val)
    (h : dmem m k = false) : keysOf (dset m k v) = keysOf m ++ [k] := by
  induction m with
  | nil => simp [dset]
  | cons p rest ih =>
    obtain ⟨k₀, v₀⟩ := p
    by_cases hk : k₀ = k
    · subst hk; simp [dmem, dget] at h
    · simp [dmem, dget, hk] at h
      simp [dset, hk, ih (by simp [dmem, h])]

/-- Lemma: `dset` keeps the keys distinct. -/
theorem keysOf_dset_nodup (m : Mapping) (k : String) (v : Val)
    (h : (keysOf m).Nodup) : (keysOf (dset m k v)).Nodup := by
  cases hm : dmem m k with
  | true => rw [keysOf_dset_of_mem m k v hm]; exact h
  | false =>
    rw [keysOf_dset_of_not_mem m k v hm]
    apply List.Nodup.append h (List.nodup_singleton k)
    intro x hx hx'
    simp at hx'
    subst hx'
    rw [mem_keysOf_iff] at hx
    rw [hx] at hm
    cases hm

/-- Deleting a key yields a sublist of the keys. -/
theorem keysOf_ddel_sublist (m : Mapping) (k : String) :
    (keysOf (ddel m k)).Sublist (keysOf m) := by
  induction m with
  | nil => simp [ddel]
  | cons p rest ih =>
    obtain ⟨k₀, v₀⟩ := p
    by_cases hk : k₀ = k
    · simp only [ddel, if_pos hk]
      exact (List.sublist_cons_self k₀ (keysOf rest)).trans (List.Sublist.refl _) |>.trans (by simp)
    · simp only [ddel, if_neg hk, keysOf_cons]
      exact ih.cons₂ k₀

/-- Lemma: `ddel` keeps the keys distinct. -/
theorem keysOf_ddel_nodup (m : Mapping) (k : String)
    (h : (keysOf m).Nodup) : (keysOf (ddel m k)).Nodup :=
  h.sublist (keysOf_ddel_sublist m k)

/-- Heap lookup after a store at the stored reference. -/
theorem hget_hset_self (hs : List (Nat × Mapping)) (r : Nat) (m : Mapping) :
    hget (hset hs r m) r = some m := by
  induction hs with
  | nil => simp [hset, hget]
  | cons p rest ih =>
    obtain ⟨r', m'⟩ := p
    by_cases hr : r' = r
    · subst hr; simp [hset, hget]
    · simp [hset, hget, hr, ih]

/-- Counterexample to C10 as stated: when the script file cannot be read,
`setup` still deletes the `script_file` key from the caller's mapping but
adds no `startup_script` entry, so the key is not replaced. -/
theorem setup_mutate_read_failure :
    dget (setupMutate env0 Val.null [("script_file", Val.str "/tmp/x")])
      "script_file" = none ∧
    dget (setupMutate env0 Val.null [("script_file", Val.str "/tmp/x")])
      "startup_script" = none := by
  constructor <;> rfl

/-- C10 (amended): `setup` mutates the caller-owned `additional_settings`
dict in place: a present `script_file` key is always removed, and when the
file can be read and no vm_id is given its content is stored under
`startup_script` in the same dict (a failed read leaves no such entry);
when a vm_id is given, no `startup_script` key survives; and calls that
omit the argument all operate on the single default dict allocated at
function definition, whose mutation is stored back on the heap. -/
theorem setup_mutates_caller_dict (env : Env) (vm : Val) (m : Mapping)
    (h : PyHeap) (defRef : Nat) (hnd : (keysOf m).Nodup) :
    (dmem m "script_file" = true →
      dget (setupMutate env vm m) "script_file" = none) ∧
    (∀ c, env.readFile (scriptFilePath m) = some c → vm = Val.null →
      dmem m "script_file" = true →
      dget (setupMutate env vm m) "startup_script" = some (Val.str c)) ∧
    (vm ≠ Val.null → dget (setupMutate env vm m) "startup_script" = none) ∧
    setupArgRef defRef none = defRef ∧
    PyHeap.get (setupCallHeap env vm h defRef none) defRef
      = setupMutate env vm (h.get defRef) := by
  have key1 : ∀ m1 : Mapping, dget m1 "script_file" = none →
      dget (if dmem m1 "startup_script" ∧ vm ≠ Val.null then
        ddel m1 "startup_script" else m1) "script_file" = none := by
    intro m1 h1
    split
    · rw [dget_ddel_ne m1 "startup_script" "script_file" (by decide)]
      exact h1
    · exact h1
  refine ⟨?_, ?_, ?_, rfl, ?_⟩
  · intro hm
    unfold setupMutate
    simp only [hm, if_true]
    apply key1
    cases env.readFile (scriptFilePath m) with
    | none => exact dget_ddel_self m "script_file" hnd
    | some c =>
      exact dget_ddel_self _ "script_file"
        (keysOf_dset_nodup m "startup_script" (Val.str c) hnd)
  · intro c hc hvm hm
    unfold setupMutate
    simp only [hm, if_true, hc, hvm]
    have : ¬ (dmem (ddel (dset m "startup_script" (Val.str c)) "script_file")
        "startup_script" = true ∧ (Val.null : Val) ≠ Val.null) := by
      simp
    rw [if_neg this,
        dget_ddel_ne _ "script_file" "startup_script" (by decide),
        dget_dset_self]
  · intro hvm
    unfold setupMutate
    set m1 := (if dmem m "script_file" = true then
        ddel (match env.readFile (scriptFilePath m) with
              | some content => dset m "startup_script" (Val.str content)
              | none => m) "script_file"
      else m) with hm1
    have hm1nd : (keysOf m1).Nodup := by
      rw [hm1]
      split
      · cases env.readFile (scriptFilePath m) with
        | none => exact keysOf_ddel_nodup m "script_file" hnd
        | some c =>
          exact keysOf_ddel_nodup _ "script_file"
            (keysOf_dset_nodup m "startup_script" (Val.str c) hnd)
      · exact hnd
    by_cases hss : dmem m1 "startup_script" = true
    · rw [if_pos ⟨hss, hvm⟩]
      exact dget_ddel_self m1 "startup_script" hm1nd
    · rw [if_neg (fun hcon => hss hcon.1)]
      exact dget_none_of_dmem_false m1 "startup_script"
        (Bool.not_eq_true _ ▸ (by simpa using hss))
  · unfold setupCallHeap setupArgRef PyHeap.get PyHeap.set
    simp [hget_hset_self]

theorem setup_mutates_caller_dict_witness :
    dget (setupMutate envRead Val.null [("script_file", Val.str "/tmp/x")])
      "script_file" = none ∧
    dget (setupMutate envRead Val.null [("script_file", Val.str "/tmp/x")])
      "startup_script" = some (Val.str "ip dhcp") ∧
    dget (setupMutate envRead (Val.str "abc")
        [("startup_script", Val.str "ip dhcp")]) "startup_script" = none ∧
    setupArgRef 5 none = 5 ∧
    PyHeap.get (setupCallHeap envRead Val.null ⟨[(5, [])]⟩ 5 none) 5
      = setupMutate envRead Val.null (PyHeap.get ⟨[(5, [])]⟩ 5) :=
  ⟨(setup_mutates_caller_dict envRead Val.null [("script_file", Val.str "/tmp/x")]
      ⟨[(5, [])]⟩ 5 (by decide)).1 (by decide),
   (setup_mutates_caller_dict envRead Val.null [("script_file", Val.str "/tmp/x")]
      ⟨[(5, [])]⟩ 5 (by decide)).2.1 "ip dhcp" rfl rfl (by decide),
   (setup_mutates_caller_dict envRead (Val.str "abc")
      [("startup_script", Val.str "ip dhcp")] ⟨[(5, [])]⟩ 5 (by decide)).2.2.1
      (by decide),
   (setup_mutates_caller_dict envRead Val.null [("script_file", Val.str "/tmp/x")]
      ⟨[(5, [])]⟩ 5 (by decide)).2.2.2.1,
   (setup_mutates_caller_dict envRead Val.null [] ⟨[(5, [])]⟩ 5 (by decide)).2.2.2.2⟩

/-- A mapping whose keys are exactly the four standard settings keys is a
four-entry list with those keys in order. -/
theorem mapping_of_keys (m : Mapping)
    (h : keysOf m = ["name", "script_file", "startup_script", "console"]) :
    ∃ v1 v2 v3 v4, m = [("name", v1), ("script_file", v2),
      ("startup_script", v3), ("console", v4)] := by
  cases m with
  | nil => simp [keysOf] at h
  | cons p1 t1 =>
  cases t1 with
  | nil => simp [keysOf] at h
  | cons p2 t2 =>
  cases t2 with
  | nil => simp [keysOf] at h
  | cons p3 t3 =>
  cases t3 with
  | nil => simp [keysOf] at h
  | cons p4 t4 =>
  cases t4 with
  | cons p5 t5 => simp [keysOf] at h
  | nil =>
    obtain ⟨k1, v1⟩ := p1
    obtain ⟨k2, v2⟩ := p2
    obtain ⟨k3, v3⟩ := p3
    obtain ⟨k4, v4⟩ := p4
    simp only [keysOf, List.map_cons, List.map_nil, List.cons.injEq, and_true] at h
    obtain ⟨h1, h2, h3, h4⟩ := h
    exact ⟨v1, v2, v3, v4, by rw [h1, h2, h3, h4]⟩

/-- C3: feeding the record `dump()` produced into `load()` on a fresh
device, with the server echoing back the created device's properties (its
vm_id and its non-default settings), reconstructs an equivalent device:
the same name, the same settings and defaults — hence the same set of
non-default settings — and the single port carries the saved port's name
and id, matched by port number 0. The hypotheses say the original device
was built by `__init__` (defaults snapshot, four settings keys, one port
numbered 0) and initialized (a non-empty name). -/
theorem dump_load_round_trip (env : Env) (orig : Device)
    (nid serverId pidNew : Nat) (projectId : Val) (nm : String)
    (hnm : dget orig.settings "name" = some (Val.str nm)) (hne : nm ≠ "")
    (hdef : orig.defaults = (initDevice nid projectId serverId pidNew).defaults)
    (hkeys : keysOf orig.settings = ["name", "script_file", "startup_script", "console"])
    (p : PortState) (hports : orig.ports = [p]) (hp0 : p.portNumber = 0) :
    (loadRoundTrip env (initDevice nid projectId serverId pidNew) (dumpOp orig)
        (("vm_id", orig.vm_id) :: (dumpOp orig).properties)).map (fun eff =>
      (nameOf eff.dev, eff.dev.settings, eff.dev.defaults,
       (dumpOp eff.dev).properties,
       eff.dev.ports.map (fun q => (q.pname, q.pid, q.portNumber))))
      = some (nameOf orig, orig.settings, orig.defaults,
          (dumpOp orig).properties, [(p.pname, p.pid, 0)]) := by
  obtain ⟨v1, sf, ss, cv, hs⟩ := mapping_of_keys orig.settings hkeys
  rw [hs] at hnm
  have hv1 : v1 = Val.str nm := by simpa [dget] using hnm
  subst hv1
  have hne' : Val.str "" ≠ Val.str nm := by
    intro hcon
    injection hcon with hcon'
    exact hne hcon'.symm
  by_cases hsf : Val.str "" = sf <;> by_cases hss : Val.null = ss <;>
    by_cases hcv : Val.null = cv <;>
    (try subst hsf) <;> (try subst hss) <;> (try subst hcv) <;>
    simp_all [loadRoundTrip, loadOp, dumpOp, setupOp_dev, setupCallback,
      updatePortSettings, Eff.andThen, reconcile, reconcileStep, initDevice,
      initPort, PortState.dump, nameOf, dget, dset, ddel, dmem, keysOf,
      Val.pyStr, Ne.symm hne]

/-- Witness for C3: the round trip at a concrete initialized device with a
startup script and console port, reloaded onto a fresh device whose port
got a new id. -/
theorem dump_load_round_trip_witness :
    (loadRoundTrip env0 (initDevice 0 Val.null 0 9) (dumpOp devR1)
        (("vm_id", devR1.vm_id) :: (dumpOp devR1).properties)).map (fun eff =>
      (nameOf eff.dev, eff.dev.settings, eff.dev.defaults,
       (dumpOp eff.dev).properties,
       eff.dev.ports.map (fun q => (q.pname, q.pid, q.portNumber))))
      = some (nameOf devR1, devR1.settings, devR1.defaults,
          (dumpOp devR1).properties,
          [((initPort 7).pname, (initPort 7).pid, 0)]) :=
  dump_load_round_trip env0 devR1 0 0 9 Val.null "R1" rfl (by decide) rfl rfl
    (initPort 7) rfl rfl

end VPCS
